import Mathlib

/-!
Verification of the NotesFlow PWA core: a shallow embedding of the
Local Record Store (class `NotesDB` in `app.jsx`) and of the Cache
Lifecycle Manager (`service-worker.js`), with theorems settling the
specification's claims about them.
-/

namespace NotesFlow

/-! ### JavaScript string primitives

`String.prototype.includes` and `String.prototype.toLowerCase` as used by
`NotesDB.searchNotes` and by the service worker's origin guard. -/

/-- Embedding of JavaScript `hay.includes(needle)` at the character-list
level: `true` iff `needle` occurs contiguously inside `hay`. -/
def listIncludes (needle : List Char) : List Char → Bool
  | [] => needle.isPrefixOf []
  | a :: t => needle.isPrefixOf (a :: t) || listIncludes needle t

/-- Embedding of JavaScript `s.includes(t)`. -/
def jsIncludes (s t : String) : Bool :=
  listIncludes t.data s.data

/-- Embedding of JavaScript `s.toLowerCase()`: lowercase every
character. -/
def jsToLower (s : String) : String :=
  String.mk (s.data.map Char.toLower)

theorem listIncludes_eq_true (n : List Char) (h : List Char) :
    listIncludes n h = true ↔ n <:+: h := by
  induction h with
  | nil =>
      simp [listIncludes, List.isPrefixOf_iff_prefix, List.prefix_nil, List.infix_nil]
  | cons a t ih =>
      simp [listIncludes, List.isPrefixOf_iff_prefix, ih, List.infix_cons_iff]

theorem listIncludes_nil_left (h : List Char) : listIncludes [] h = true := by
  cases h <;> simp [listIncludes]

/-! ### Local Record Store (`NotesDB` in `app.jsx`)

The IndexedDB object store `notes` is keyed by `id` with `autoIncrement`;
its state is the list of stored records together with the platform key
generator's next key (which starts at 1 and never decreases, even across
deletions).  `Date.now()` is passed in explicitly as `now`. -/

/-- A note record as stored by `NotesDB` (`id` assigned by the key
generator, timestamps stamped by `addNote`/`updateNote`). -/
structure Note where
  id : Nat
  title : String
  content : String
  color : String
  createdAt : Nat
  updatedAt : Nat
deriving DecidableEq, Repr

/-- State of the `notes` object store: stored records plus the
auto-increment key generator. -/
structure DBState where
  notes : List Note
  nextId : Nat
deriving DecidableEq, Repr

/-- State right after `NotesDB.init` first creates the object store:
empty collection, IndexedDB key generators start at 1. -/
def initState : DBState := { notes := [], nextId := 1 }

/-- `NotesDB.addNote` — spreads the partial note, stamps `createdAt` and
`updatedAt` with the current time, and `objectStore.add` assigns the next
auto-increment key, which is returned. -/
def addNote (st : DBState) (title content color : String) (now : Nat) :
    Nat × DBState :=
  let noteData : Note :=
    { id := st.nextId, title := title, content := content, color := color,
      createdAt := now, updatedAt := now }
  (st.nextId, { notes := st.notes ++ [noteData], nextId := st.nextId + 1 })

/-- `NotesDB.getAllNotes` — `objectStore.getAll()`. -/
def getAllNotes (st : DBState) : List Note := st.notes

/-- The partial-change object accepted by `NotesDB.updateNote`; the UI
passes `\x7btitle\x7d` or `\x7bcontent\x7d` (and a color is possible),
never `id` or timestamps. -/
structure NoteUpdates where
  title? : Option String := none
  content? : Option String := none
  color? : Option String := none
deriving DecidableEq, Repr

/-- JavaScript spread `\x7b...note, ...updates\x7d`: fields present in
`updates` overwrite the corresponding fields of `note`. -/
def mergeUpdates (note : Note) (u : NoteUpdates) : Note :=
  { note with
    title := u.title?.getD note.title,
    content := u.content?.getD note.content,
    color := u.color?.getD note.color }

/-- `NotesDB.updateNote` — `objectStore.get(id)`; if a record is found,
merge the updates over it, re-stamp `updatedAt`, and `put` the merged
record back (replacing the record with that key); otherwise reject with
`Error('Note non trouvée')` and leave the store untouched. -/
def updateNote (st : DBState) (id : Nat) (u : NoteUpdates) (now : Nat) :
    Except String Note × DBState :=
  match st.notes.find? (fun n => n.id == id) with
  | some note =>
      let updatedNote := { mergeUpdates note u with updatedAt := now }
      (Except.ok updatedNote,
        { st with notes := st.notes.map (fun m => if m.id == id then updatedNote else m) })
  | none => (Except.error "Note non trouvée", st)

/-- `NotesDB.deleteNote` — `objectStore.delete(id)`: removes the record
with that key if present; succeeds either way.  The key generator is
untouched. -/
def deleteNote (st : DBState) (id : Nat) : DBState :=
  { st with notes := st.notes.filter (fun n => n.id != id) }

/-- `NotesDB.searchNotes` — lowercases the search term once, then filters
the full collection on a lowercased-substring test against `title` or
`content`. -/
def searchNotes (st : DBState) (searchTerm : String) : List Note :=
  let term := jsToLower searchTerm
  (getAllNotes st).filter (fun note =>
    jsIncludes (jsToLower note.title) term || jsIncludes (jsToLower note.content) term)

/-- Specification-side predicate: `pat` occurs in `s` as a
case-insensitive substring. -/
def ciSubstr (pat s : String) : Prop :=
  (jsToLower pat).data <:+: (jsToLower s).data

/-! ### Operation traces over the store (for id-freshness) -/

/-- One store operation in a trace of Adds and Deletes. -/
inductive Op where
  | add (title content color : String) (now : Nat)
  | del (id : Nat)
deriving DecidableEq, Repr

/-- Run a trace of operations, collecting the ids returned by the Adds in
order. -/
def runOps : DBState → List Op → DBState × List Nat
  | st, [] => (st, [])
  | st, Op.add t c col now :: rest =>
      let r := addNote st t c col now
      let res := runOps r.2 rest
      (res.1, r.1 :: res.2)
  | st, Op.del i :: rest => runOps (deleteNote st i) rest

theorem runOps_ids_lt (ops : List Op) :
    ∀ st : DBState, (runOps st ops).2.Pairwise (· < ·) ∧
      ∀ i ∈ (runOps st ops).2, st.nextId ≤ i := by
  induction ops with
  | nil => intro st; simp [runOps]
  | cons op rest ih =>
      intro st
      cases op with
      | add t c col now =>
          obtain ⟨hp, hb⟩ :=
            ih { notes := st.notes ++
                  [{ id := st.nextId, title := t, content := c, color := col,
                     createdAt := now, updatedAt := now }],
                 nextId := st.nextId + 1 }
          constructor
          · simp only [runOps, addNote]
            exact List.pairwise_cons.mpr
              ⟨fun j hj => Nat.lt_of_lt_of_le (Nat.lt_succ_self _) (hb j hj), hp⟩
          · simp only [runOps, addNote]
            intro i hi
            rcases List.mem_cons.mp hi with h | h
            · omega
            · exact Nat.le_trans (Nat.le_succ _) (hb i h)
      | del i =>
          simpa only [runOps, deleteNote] using
            ih { notes := st.notes.filter (fun n => n.id != i), nextId := st.nextId }

/-! ### Cache Lifecycle Manager (`service-worker.js`)

The Cache Storage API is modelled as a list of named partitions in
creation order, each a list of (URL, response-snapshot) entries; request
identity is the URL.  `location.origin` is the parameter `loc`; the live
network is passed in as an oracle, and a flag records whether the handler
actually consulted it. -/

/-- An HTTP response snapshot (status and body capture what the cache
stores). -/
structure Response where
  status : Nat
  body : String
deriving DecidableEq, Repr

/-- `Response.prototype.clone()`: an independent copy with the same
contents. -/
def Response.clone (r : Response) : Response :=
  { status := r.status, body := r.body }

/-- The fields of a fetch-event request the handler inspects. -/
structure Request where
  href : String
  origin : String
  destination : String
deriving DecidableEq, Repr

/-- One named cache partition: (name, entries keyed by URL). -/
abbrev CachePart := String × List (String × Response)

/-- The origin's Cache Storage: partitions in creation order. -/
abbrev CacheStore := List CachePart

def CACHE_NAME : String := "notesflow-v1"
def DYNAMIC_CACHE : String := "notesflow-dynamic-v1"

/-- The fixed static-asset manifest from `service-worker.js`. -/
def STATIC_ASSETS : List String :=
  ["/", "/index.html", "/app.jsx", "/manifest.json",
   "https://unpkg.com/react@18/umd/react.production.min.js",
   "https://unpkg.com/react-dom@18/umd/react-dom.production.min.js",
   "https://unpkg.com/@babel/standalone/babel.min.js"]

/-- `cache.match(url)` within one partition's entries. -/
def cacheLookup (entries : List (String × Response)) (url : String) : Option Response :=
  (entries.find? (fun e => e.1 == url)).map (fun e => e.2)

/-- `caches.match(url)`: try each partition in creation order. -/
def cachesMatch : CacheStore → String → Option Response
  | [], _ => none
  | part :: rest, url =>
      match cacheLookup part.2 url with
      | some r => some r
      | none => cachesMatch rest url

/-- `caches.open(name)`: returns the store, creating an empty partition
of that name if none exists. -/
def openCache (cs : CacheStore) (name : String) : CacheStore :=
  if cs.any (fun p => p.1 == name) then cs else cs ++ [(name, [])]

/-- `cache.put(url, r)` on one partition's entries: replace any entry
with that key, then record the new snapshot. -/
def putEntry (entries : List (String × Response)) (url : String) (r : Response) :
    List (String × Response) :=
  entries.filter (fun e => e.1 != url) ++ [(url, r)]

/-- `cache.put(url, r)` applied to the named partition of the store. -/
def cachePut : CacheStore → String → String → Response → CacheStore
  | [], _, _, _ => []
  | p :: rest, name, url, r =>
      if p.1 == name then (p.1, putEntry p.2 url r) :: rest
      else p :: cachePut rest name url r

/-- Observable outcome of the fetch interception: not intercepted, a
response delivered, or a failure surfaced to the caller. -/
inductive FetchOutcome where
  | passThrough
  | served (r : Response)
  | errored
deriving DecidableEq, Repr

/-- The `fetch` event handler of `service-worker.js`: origin guard, then
cache-first with network fallback; a successful (status 200) network
response is cloned into the dynamic partition; on network failure a
navigation request falls back to the cached `/index.html`.  Returns the
outcome, the cache store afterwards, and whether the network was
consulted. -/
def handleFetch (loc : String) (cs : CacheStore) (req : Request)
    (net : Except Unit Response) : FetchOutcome × CacheStore × Bool :=
  if req.origin != loc && !(jsIncludes req.href "unpkg.com") then
    (FetchOutcome.passThrough, cs, false)
  else
    match cachesMatch cs req.href with
    | some cachedResponse => (FetchOutcome.served cachedResponse, cs, false)
    | none =>
        match net with
        | Except.ok networkResponse =>
            if networkResponse.status == 200 then
              (FetchOutcome.served networkResponse,
                cachePut (openCache cs DYNAMIC_CACHE) DYNAMIC_CACHE req.href
                  networkResponse.clone,
                true)
            else
              (FetchOutcome.served networkResponse, cs, true)
        | Except.error _ =>
            if req.destination == "document" then
              match cachesMatch cs "/index.html" with
              | some offline => (FetchOutcome.served offline, cs, true)
              | none => (FetchOutcome.errored, cs, true)
            else
              (FetchOutcome.errored, cs, true)

/-- How the promise handed to `event.waitUntil` settles. -/
inductive EventOutcome where
  | resolved
  | rejected
deriving DecidableEq, Repr

/-- `cache.addAll`'s fetch phase: fetch every listed asset, failing the
whole batch if any single fetch fails (the platform's addAll is
all-or-nothing). -/
def fetchAll (oracle : String → Except Unit Response) :
    List String → Except Unit (List (String × Response))
  | [] => Except.ok []
  | url :: rest =>
      match oracle url with
      | Except.ok r =>
          match fetchAll oracle rest with
          | Except.ok entries => Except.ok ((url, r) :: entries)
          | Except.error e => Except.error e
      | Except.error e => Except.error e

/-- Store a batch of fetched entries into the named partition. -/
def cachePutAll (name : String) : CacheStore → List (String × Response) → CacheStore
  | cs, [] => cs
  | cs, (url, r) :: rest => cachePutAll name (cachePut cs name url r) rest

/-- The `install` event handler: `caches.open(CACHE_NAME)`, then
`cache.addAll(STATIC_ASSETS)`, then `self.skipWaiting()`; the trailing
`.catch` only logs, so the promise handed to `event.waitUntil` settles
`resolved` even when the asset batch fails (and `skipWaiting` is then
skipped).  Returns the outcome, the cache store afterwards, and whether
`skipWaiting` was invoked. -/
def handleInstall (cs : CacheStore) (oracle : String → Except Unit Response) :
    EventOutcome × CacheStore × Bool :=
  let cs1 := openCache cs CACHE_NAME
  match fetchAll oracle STATIC_ASSETS with
  | Except.ok entries => (EventOutcome.resolved, cachePutAll CACHE_NAME cs1 entries, true)
  | Except.error _ => (EventOutcome.resolved, cs1, false)

/-- Entries of the named partition (empty when no such partition
exists). -/
def cacheEntries (cs : CacheStore) (name : String) : List (String × Response) :=
  ((cs.find? (fun p => p.1 == name)).map (fun p => p.2)).getD []

theorem cacheLookup_putEntry (entries : List (String × Response)) (url : String)
    (r : Response) : cacheLookup (putEntry entries url r) url = some r := by
  have h1 : (entries.filter (fun e => e.1 != url)).find? (fun e => e.1 == url) = none := by
    rw [ List.find?_eq_none]
    intro e he
    have h2 := (List.mem_filter.mp he).2
    simp only [bne_iff_ne, ne_eq, decide_eq_true_eq] at h2
    simpa using h2
  unfold putEntry cacheLookup
  rw [ List.find?_append, h1]
  simp

theorem openCache_has (cs : CacheStore) (name : String) :
    (openCache cs name).any (fun p => p.1 == name) = true := by
  cases hc : cs.any (fun p => p.1 == name) <;> simp [openCache, hc]

theorem cacheEntries_cachePut_self (cs : CacheStore) (name url : String) (r : Response)
    (h : cs.any (fun p => p.1 == name) = true) :
    cacheEntries (cachePut cs name url r) name = putEntry (cacheEntries cs name) url r := by
  induction cs with
  | nil => simp at h
  | cons p t ih =>
      cases hp : (p.1 == name) with
      | true => simp [cachePut, cacheEntries, hp]
      | false =>
          have h' : t.any (fun q => q.1 == name) = true := by
            simpa [List.any_cons, hp] using h
          have ht := ih h'
          simp only [cachePut, cacheEntries, hp] at ht ⊢
          simpa [List.find?_cons, hp] using ht

theorem dynamic_put_lookup (cs : CacheStore) (url : String) (r : Response) :
    cacheLookup
        (cacheEntries (cachePut (openCache cs DYNAMIC_CACHE) DYNAMIC_CACHE url r)
          DYNAMIC_CACHE) url = some r := by
  rw [cacheEntries_cachePut_self _ _ _ _ (openCache_has cs DYNAMIC_CACHE),
    cacheLookup_putEntry]

/-- Spec-side "successful status": any 2xx HTTP status. -/
def isSuccessStatus (s : Nat) : Prop := 200 ≤ s ∧ s < 300

/-! ### Claims about the Local Record Store -/

/-- C1: for every id not present in the store, Update(id, partialChanges)
rejects with the record-not-found error, does not create a new record,
and leaves the collection (indeed the whole store state) unchanged. -/
theorem updateNote_absent_id_fails (st : DBState) (i : Nat) (u : NoteUpdates) (now : Nat)
    (h : ∀ n ∈ st.notes, n.id ≠ i) :
    updateNote st i u now = (Except.error "Note non trouvée", st) := by
  have hf : st.notes.find? (fun n => n.id == i) = none := by
    rw [ List.find?_eq_none]
    intro n hn
    simpa using h n hn
  simp [updateNote, hf]

/-- Witness for C1: updating id 7 in a store holding only id 1 rejects
and leaves the store as it was. -/
theorem updateNote_absent_id_fails_witness :
    (∀ n ∈ (DBState.mk [Note.mk 1 "A" "x" "red" 5 5] 2).notes, n.id ≠ 7) ∧
    updateNote (DBState.mk [Note.mk 1 "A" "x" "red" 5 5] 2) 7 (NoteUpdates.mk none none none) 10 =
      (Except.error "Note non trouvée", DBState.mk [Note.mk 1 "A" "x" "red" 5 5] 2) :=
  ⟨by decide,
    updateNote_absent_id_fails (DBState.mk [Note.mk 1 "A" "x" "red" 5 5] 2) 7
      (NoteUpdates.mk none none none) 10 (by decide)⟩

/-- C2: over any trace of Add and Delete operations started from the
freshly initialised store, the ids handed out by the Adds are pairwise
distinct — the key generator never reuses an id, even after deletions. -/
theorem add_assigns_fresh_ids (ops : List Op) : ((runOps initState ops).2).Nodup := by
  have h := (runOps_ids_lt ops initState).1
  exact h.imp (fun hab => Nat.ne_of_lt hab)

/-- C3: updating a record that is present keeps its `id` and `createdAt`
unchanged, and (the clock being monotone, so the current time is at least
the record's last stamp) its `updatedAt` does not decrease; the merged
record is what is stored back. -/
theorem updateNote_preserves_id_createdAt (st : DBState) (i : Nat) (u : NoteUpdates)
    (now : Nat) (old : Note) (hFind : st.notes.find? (fun n => n.id == i) = some old)
    (hClock : old.updatedAt ≤ now) :
    ∃ r : Note, (updateNote st i u now).1 = Except.ok r ∧
      r.id = old.id ∧ r.createdAt = old.createdAt ∧ old.updatedAt ≤ r.updatedAt ∧
      r ∈ (updateNote st i u now).2.notes := by
  have hmem : old ∈ st.notes := List.mem_of_find?_eq_some hFind
  have hid : (old.id == i) = true := List.find?_some (p := fun n : Note => n.id == i) hFind
  refine ⟨{ mergeUpdates old u with updatedAt := now }, ?_, rfl, rfl, hClock, ?_⟩
  · simp [updateNote, hFind]
  · simp only [updateNote, hFind]
    refine List.mem_map.mpr ⟨old, hmem, ?_⟩
    simp [hid]

/-- Witness for C3: updating the title of the stored note with id 1. -/
theorem updateNote_preserves_id_createdAt_witness :
    (DBState.mk [Note.mk 1 "A" "x" "red" 5 6] 2).notes.find? (fun n => n.id == 1) =
        some (Note.mk 1 "A" "x" "red" 5 6) ∧
    (Note.mk 1 "A" "x" "red" 5 6).updatedAt ≤ 9 ∧
    ∃ r : Note,
      (updateNote (DBState.mk [Note.mk 1 "A" "x" "red" 5 6] 2) 1
          (NoteUpdates.mk (some "B") none none) 9).1 = Except.ok r ∧
      r.id = (Note.mk 1 "A" "x" "red" 5 6).id ∧
      r.createdAt = (Note.mk 1 "A" "x" "red" 5 6).createdAt ∧
      (Note.mk 1 "A" "x" "red" 5 6).updatedAt ≤ r.updatedAt ∧
      r ∈ (updateNote (DBState.mk [Note.mk 1 "A" "x" "red" 5 6] 2) 1
          (NoteUpdates.mk (some "B") none none) 9).2.notes :=
  ⟨by decide, by decide,
    updateNote_preserves_id_createdAt (DBState.mk [Note.mk 1 "A" "x" "red" 5 6] 2) 1
      (NoteUpdates.mk (some "B") none none) 9 (Note.mk 1 "A" "x" "red" 5 6)
      (by decide) (by decide)⟩

/-- C4: Search returns exactly the members of the full current collection
whose title or content contains the term as a case-insensitive
substring. -/
theorem searchNotes_mem_iff (st : DBState) (term : String) (n : Note) :
    n ∈ searchNotes st term ↔
      n ∈ getAllNotes st ∧ (ciSubstr term n.title ∨ ciSubstr term n.content) := by
  simp [searchNotes, getAllNotes, List.mem_filter, jsIncludes, listIncludes_eq_true,
    ciSubstr]

/-- C10: searching with the empty term matches every record, so
Search("") returns exactly GetAll(). -/
theorem searchNotes_empty_term (st : DBState) : searchNotes st "" = getAllNotes st := by
  unfold searchNotes
  refine List.filter_eq_self.mpr ?_
  intro n hn
  have h0 : (jsToLower "").data = ([] : List Char) := rfl
  simp [jsIncludes, h0, listIncludes_nil_left]

/-! ### Claims about the Cache Lifecycle Manager -/

/-- C5: for an intercepted request that misses the cache and whose live
fetch fails with a network error, a navigation (document) request falls
back to the cached root document snapshot, while any other request kind
surfaces the failure to the caller. -/
theorem fetch_offline_document_fallback (loc : String) (cs : CacheStore) (req : Request)
    (hI : (req.origin != loc && !(jsIncludes req.href "unpkg.com")) = false)
    (hMiss : cachesMatch cs req.href = none) :
    (∀ r : Response, req.destination = "document" →
        cachesMatch cs "/index.html" = some r →
        handleFetch loc cs req (Except.error ()) = (FetchOutcome.served r, cs, true)) ∧
    (req.destination ≠ "document" →
        handleFetch loc cs req (Except.error ()) = (FetchOutcome.errored, cs, true)) := by
  constructor
  · intro r hd hr
    simp [handleFetch, hI, hMiss, hd, hr]
  · intro hd
    have hb : (req.destination == "document") = false := by
      simpa using hd
    simp [handleFetch, hI, hMiss, hb]

/-- Witness for C5: a navigation request that misses the cache and whose
fetch fails is answered with the cached `/index.html` snapshot. -/
theorem fetch_offline_document_fallback_witness :
    handleFetch "https://app.local"
        [("notesflow-v1", [("/index.html", Response.mk 200 "home")])]
        (Request.mk "https://app.local/page" "https://app.local" "document")
        (Except.error ()) =
      (FetchOutcome.served (Response.mk 200 "home"),
        [("notesflow-v1", [("/index.html", Response.mk 200 "home")])], true) :=
  (fetch_offline_document_fallback "https://app.local"
      [("notesflow-v1", [("/index.html", Response.mk 200 "home")])]
      (Request.mk "https://app.local/page" "https://app.local" "document")
      (by decide) (by decide)).1
    (Response.mk 200 "home") rfl (by decide)

/-- C6: an intercepted request whose identity is in some cache partition
is answered from the cache with the cache store unchanged and no network
consultation, whatever the network would have returned; repeating the
request against the resulting store returns the same snapshot, again
without touching the network. -/
theorem fetch_cache_hit_no_network (loc : String) (cs : CacheStore) (req : Request)
    (r : Response) (net net' : Except Unit Response)
    (hI : (req.origin != loc && !(jsIncludes req.href "unpkg.com")) = false)
    (hHit : cachesMatch cs req.href = some r) :
    handleFetch loc cs req net = (FetchOutcome.served r, cs, false) ∧
    handleFetch loc cs req net' = (FetchOutcome.served r, cs, false) := by
  constructor <;> simp [handleFetch, hI, hHit]

/-- Witness for C6: a cached asset is served twice in a row from an
unchanged store, under two different network environments. -/
theorem fetch_cache_hit_no_network_witness :
    handleFetch "https://app.local" [("notesflow-v1", [("/app.jsx", Response.mk 200 "code")])]
        (Request.mk "/app.jsx" "https://app.local" "script")
        (Except.ok (Response.mk 200 "other")) =
      (FetchOutcome.served (Response.mk 200 "code"),
        [("notesflow-v1", [("/app.jsx", Response.mk 200 "code")])], false) ∧
    handleFetch "https://app.local" [("notesflow-v1", [("/app.jsx", Response.mk 200 "code")])]
        (Request.mk "/app.jsx" "https://app.local" "script") (Except.error ()) =
      (FetchOutcome.served (Response.mk 200 "code"),
        [("notesflow-v1", [("/app.jsx", Response.mk 200 "code")])], false) :=
  fetch_cache_hit_no_network "https://app.local"
    [("notesflow-v1", [("/app.jsx", Response.mk 200 "code")])]
    (Request.mk "/app.jsx" "https://app.local" "script") (Response.mk 200 "code")
    (Except.ok (Response.mk 200 "other")) (Except.error ()) (by decide) (by decide)

/-- An install-time fetch environment in which `/manifest.json` cannot be
fetched but every other asset succeeds. -/
def failingOracle : String → Except Unit Response :=
  fun url => if url == "/manifest.json" then Except.error () else Except.ok (Response.mk 200 url)

/-- C7 (code bug): when one static asset fails to fetch, `cache.addAll`
rejects and no partial static partition is populated — but the handler's
trailing `.catch` only logs, so the promise handed to `event.waitUntil`
settles successfully: the install attempt does NOT abort and the failure
is NOT reported upstream, contradicting the claimed guarantee. -/
theorem install_failure_swallowed :
    handleInstall [] failingOracle = (EventOutcome.resolved, [(CACHE_NAME, [])], false) := by
  rfl

/-- The application's own origin, for the concrete C8 scenario. -/
def appOrigin : String := "https://notesflow.example"

/-- The external origins the specification allow-lists (the CDN serving
the React bundles). -/
def allowedExternalOrigins : List String := ["https://unpkg.com"]

/-- C8 counterexample: a request whose origin is neither the
application's origin nor any allow-listed external origin is still
intercepted, because the source checks `url.href.includes('unpkg.com')`
— a substring test on the whole URL, not an origin test — and the
substring can occur in a foreign URL's path. -/
theorem fetch_origin_allowlist_counterexample :
    (Request.mk "https://evil.example/unpkg.com/lib.js" "https://evil.example"
        "script").origin ≠ appOrigin ∧
    (Request.mk "https://evil.example/unpkg.com/lib.js" "https://evil.example"
        "script").origin ∉ allowedExternalOrigins ∧
    (handleFetch appOrigin []
        (Request.mk "https://evil.example/unpkg.com/lib.js" "https://evil.example" "script")
        (Except.error ())).1 ≠ FetchOutcome.passThrough := by
  decide

/-- C8 (amended): a request whose origin differs from the application's
origin and whose full URL does not contain the substring `unpkg.com` is
not handled at all: no cache lookup or insertion, no network use, the
platform takes over. -/
theorem fetch_foreign_origin_not_handled (loc : String) (cs : CacheStore) (req : Request)
    (net : Except Unit Response) (h1 : req.origin ≠ loc)
    (h2 : jsIncludes req.href "unpkg.com" = false) :
    handleFetch loc cs req net = (FetchOutcome.passThrough, cs, false) := by
  have hb : (req.origin != loc && !(jsIncludes req.href "unpkg.com")) = true := by
    simp [bne_iff_ne, h1, h2]
  simp [handleFetch, hb]

/-- Witness for the amended C8: a plain cross-origin API request passes
through untouched. -/
theorem fetch_foreign_origin_not_handled_witness :
    handleFetch appOrigin []
        (Request.mk "https://api.example/data" "https://api.example" "script")
        (Except.ok (Response.mk 200 "x")) =
      (FetchOutcome.passThrough, [], false) :=
  fetch_foreign_origin_not_handled appOrigin []
    (Request.mk "https://api.example/data" "https://api.example" "script")
    (Except.ok (Response.mk 200 "x")) (by decide) (by decide)

/-- C9: on a cache miss served from the network, the response is
delivered to the caller as-is; the cache store changes only when the
response status is successful (the source inserts exactly on status 200,
a successful status), a non-successful response never changes the store,
and when insertion happens the dynamic partition holds an independent
clone of the delivered response under the request's identity. -/
theorem fetch_miss_dynamic_insert_success_only (loc : String) (cs : CacheStore)
    (req : Request) (r : Response)
    (hI : (req.origin != loc && !(jsIncludes req.href "unpkg.com")) = false)
    (hMiss : cachesMatch cs req.href = none) :
    (handleFetch loc cs req (Except.ok r)).1 = FetchOutcome.served r ∧
    (handleFetch loc cs req (Except.ok r)).2.2 = true ∧
    ((handleFetch loc cs req (Except.ok r)).2.1 ≠ cs → isSuccessStatus r.status) ∧
    (¬ isSuccessStatus r.status → (handleFetch loc cs req (Except.ok r)).2.1 = cs) ∧
    (r.status = 200 →
      cacheLookup
          (cacheEntries (handleFetch loc cs req (Except.ok r)).2.1 DYNAMIC_CACHE)
          req.href = some r.clone) := by
  by_cases h200 : r.status = 200
  · have hb : (r.status == 200) = true := by simpa using h200
    refine ⟨?_, ?_, ?_, ?_, ?_⟩
    · simp [handleFetch, hI, hMiss, hb]
    · simp [handleFetch, hI, hMiss, hb]
    · intro _
      exact ⟨by omega, by omega⟩
    · intro hns
      exact absurd ⟨by omega, by omega⟩ hns
    · intro _
      simp only [handleFetch, hI, hMiss, hb]
      simpa using dynamic_put_lookup cs req.href r.clone
  · have hb : (r.status == 200) = false := by simpa using h200
    refine ⟨?_, ?_, ?_, ?_, ?_⟩
    · simp [handleFetch, hI, hMiss, hb]
    · simp [handleFetch, hI, hMiss, hb]
    · intro hne
      exact absurd (by simp [handleFetch, hI, hMiss, hb]) hne
    · intro _
      simp [handleFetch, hI, hMiss, hb]
    · intro h
      exact absurd h h200

/-- Witness for C9: a same-origin cache miss answered 200 is served and
a clone is recorded in the dynamic partition. -/
theorem fetch_miss_dynamic_insert_success_only_witness :
    (handleFetch "https://app.local" []
        (Request.mk "/data.json" "https://app.local" "script")
        (Except.ok (Response.mk 200 "payload"))).1 =
      FetchOutcome.served (Response.mk 200 "payload") ∧
    (handleFetch "https://app.local" []
        (Request.mk "/data.json" "https://app.local" "script")
        (Except.ok (Response.mk 200 "payload"))).2.2 = true ∧
    ((handleFetch "https://app.local" []
        (Request.mk "/data.json" "https://app.local" "script")
        (Except.ok (Response.mk 200 "payload"))).2.1 ≠ [] →
      isSuccessStatus (Response.mk 200 "payload").status) ∧
    (¬ isSuccessStatus (Response.mk 200 "payload").status →
      (handleFetch "https://app.local" []
        (Request.mk "/data.json" "https://app.local" "script")
        (Except.ok (Response.mk 200 "payload"))).2.1 = []) ∧
    ((Response.mk 200 "payload").status = 200 →
      cacheLookup
          (cacheEntries
            (handleFetch "https://app.local" []
              (Request.mk "/data.json" "https://app.local" "script")
              (Except.ok (Response.mk 200 "payload"))).2.1 DYNAMIC_CACHE)
          "/data.json" = some (Response.mk 200 "payload").clone) :=
  fetch_miss_dynamic_insert_success_only "https://app.local" []
    (Request.mk "/data.json" "https://app.local" "script") (Response.mk 200 "payload")
    (by decide) rfl

end NotesFlow
